import Mathlib

/-!
Shallow embedding of the order / inventory / payment services of the
ecommerce-microservices repository (flat-JSON-file variant, the primary
implementation: `src/services/orders.service.js` with its companion
`products.service.js`, and the payments service embedded in
`src/services/notifications.service.js`).

Modelling conventions:
* The JSON data files (`products.json`, `orders.json`, `payments.json`) are
  modelled as lists carried in an explicit state record `St`; `readFileSync`
  / `writeFileSync` always succeed in the model (their error branches only
  log and are not part of the specified behaviour).
* JS numbers are modelled as `Int` for money/stock quantities and `Nat` for
  identifiers; nothing proved here depends on floating-point rounding, since
  every arithmetic claim compares two runs of the same operations.
* Status strings are modelled by enumerations carrying exactly the values of
  `config.ORDER_STATUSES` / `config.PAYMENT_STATUSES`; the services' string
  validity checks (`Object.values(...).includes(status)`) are then true for
  every representable input, so they do not appear as a failure branch.
* Fields never read by the modelled operations (image URL, supplier, cost,
  description, timestamps, gateway free-text) are elided or kept as opaque
  `String` parameters.
* The simulated gateway outcome (`Math.random() > 0.1`) is made explicit as
  a boolean parameter `chargeSucceeds` of `processPayment`.
-/

namespace Shop

/-- `config.ORDER_STATUSES` — fulfillment statuses of an order. -/
inductive OrderStatus
  | PENDING
  | PROCESSING
  | SHIPPED
  | DELIVERED
  | CANCELLED
deriving DecidableEq, Repr

/-- `config.PAYMENT_STATUSES` — payment statuses. -/
inductive PaymentStatus
  | PENDING
  | COMPLETED
  | FAILED
  | REFUNDED
deriving DecidableEq, Repr

/-- A record of `products.json` (fields read by the modelled operations). -/
structure Product where
  id : Nat
  nombre : String
  precio : Int
  stock_disponible : Int
  activo : Bool
deriving DecidableEq, Repr

/-- A line item stored inside an order (`productos` entries built by
`createOrder`): product id, quantity, and the unit price captured at order
time. -/
structure OrderItem where
  producto_id : Nat
  cantidad : Int
  precio_unitario : Int
deriving DecidableEq, Repr

/-- A record of `orders.json` (fields read by the modelled operations;
`fecha` elided). -/
structure Order where
  numeroPedido : Nat
  cliente_id : Nat
  productos : List OrderItem
  total : Int
  estadoPedido : OrderStatus
  estadoPago : PaymentStatus
  metodoPago : String
  direccion : String
  telefono : String
deriving DecidableEq, Repr

/-- A record of `payments.json` (`fecha` elided). -/
structure Payment where
  id : Nat
  pedido_id : Nat
  transaccion_id : String
  respuesta : String
  estado : PaymentStatus
  monto : Int
  pasarela : String
deriving DecidableEq, Repr

/-- The persistent state: the three JSON data files. -/
structure St where
  products : List Product
  orders : List Order
  payments : List Payment
deriving DecidableEq, Repr

/-- `productsService.getProductById`: first product whose `id` matches
(`Array.prototype.find`). -/
def getProductById (productId : Nat) : List Product → Option Product
  | [] => none
  | p :: ps => if p.id = productId then some p else getProductById productId ps

/-- Stock of the product `productId`, read off the products file. -/
def getStock (products : List Product) (productId : Nat) : Option Int :=
  (getProductById productId products).map Product.stock_disponible

/-- Result of `productsService.updateStock`. -/
inductive StockResult
  | notFound
  | insufficient
  | ok (currentStock : Int)
deriving DecidableEq, Repr

/-- `productsService.updateStock(productId, quantity)`: locates the first
product with the given id (`findIndex`), rejects a reduction
(`quantity < 0`) when `stock_disponible < Math.abs(quantity)`, otherwise adds
`quantity` to the stock and persists.  Returns the result together with the
products file after the call. -/
def updateStock (productId : Nat) (quantity : Int) :
    List Product → StockResult × List Product
  | [] => (.notFound, [])
  | p :: ps =>
    if p.id = productId then
      if quantity < 0 ∧ p.stock_disponible < |quantity| then
        (.insufficient, p :: ps)
      else
        (.ok (p.stock_disponible + quantity),
          { p with stock_disponible := p.stock_disponible + quantity } :: ps)
    else
      ((updateStock productId quantity ps).1, p :: (updateStock productId quantity ps).2)

/-- A line item of an incoming order-creation request. -/
structure ReqItem where
  producto_id : Nat
  cantidad : Int
deriving DecidableEq, Repr

/-- The body of an order-creation request (`orderData`). -/
structure OrderData where
  cliente_id : Nat
  productos : List ReqItem
  metodoPago : String
  direccion : String
  telefono : String
deriving DecidableEq, Repr

/-- Failure modes of `ordersService.createOrder`. -/
inductive CreateErr
  | productNotFound (productId : Nat)
  | insufficientStock (nombre : String) (disponible : Int)
  | stockUpdateFailed
deriving DecidableEq, Repr

/-- Result of `ordersService.createOrder`. -/
inductive CreateResult
  | ok (order : Order)
  | err (e : CreateErr)
deriving DecidableEq, Repr

/-- The `for (const item of orderData.productos)` loop of
`ordersService.createOrder`: per item, look up the product, check stock,
reserve via `updateStock(id, -cantidad)`, accumulate the line item (with the
unit price captured now) and the running total.  On any failure the loop
returns immediately; the products file keeps whatever the preceding
`updateStock` calls already persisted. -/
def createOrderLoop :
    List ReqItem → List Product → Int → List OrderItem →
    Option CreateErr × List Product × Int × List OrderItem
  | [], products, total, acc => (none, products, total, acc)
  | item :: rest, products, total, acc =>
    match getProductById item.producto_id products with
    | none => (some (.productNotFound item.producto_id), products, total, acc)
    | some producto =>
      if producto.stock_disponible < item.cantidad then
        (some (.insufficientStock producto.nombre producto.stock_disponible),
          products, total, acc)
      else
        match updateStock producto.id (-item.cantidad) products with
        | (.ok _, products2) =>
          createOrderLoop rest products2
            (total + producto.precio * item.cantidad)
            (acc ++ [⟨producto.id, item.cantidad, producto.precio⟩])
        | (_, products2) => (some .stockUpdateFailed, products2, total, acc)

/-- Order-number assignment of `createOrder`:
`orders.length > 0 ? Math.max(...orders.map(o => o.numeroPedido)) + 1 : 1001`. -/
def nextNumeroPedido (orders : List Order) : Nat :=
  match orders with
  | [] => 1001
  | os => (os.map Order.numeroPedido).foldl max 0 + 1

/-- `ordersService.createOrder(orderData)`: runs the validation/reservation
loop, then builds the new order with statuses `PENDING`/`PENDING` and the
computed total, appends it to the orders file and persists.  On a loop
failure it returns the error and the orders file is untouched — but the
products file keeps the already-performed reservations. -/
def createOrder (st : St) (orderData : OrderData) : CreateResult × St :=
  match createOrderLoop orderData.productos st.products 0 [] with
  | (some e, products2, _, _) => (.err e, { st with products := products2 })
  | (none, products2, total, productos) =>
    let newOrder : Order :=
      { numeroPedido := nextNumeroPedido st.orders
        cliente_id := orderData.cliente_id
        productos := productos
        total := total
        estadoPedido := .PENDING
        estadoPago := .PENDING
        metodoPago := orderData.metodoPago
        direccion := orderData.direccion
        telefono := orderData.telefono }
    (.ok newOrder,
      { st with products := products2, orders := st.orders ++ [newOrder] })

/-- `ordersService.getOrderById`: first order whose `numeroPedido` matches. -/
def getOrderById (orderId : Nat) : List Order → Option Order
  | [] => none
  | o :: os => if o.numeroPedido = orderId then some o else getOrderById orderId os

/-- `ordersService.updateOrderStatus(orderId, status)`: locates the first
matching order and overwrites `estadoPedido` with the requested status.  The
only checks in the source are existence of the order and membership of the
status string in `config.ORDER_STATUSES`; the latter holds for every value of
`OrderStatus`, so the model has no invalid-status branch.  No relation
between the current and the requested status is ever examined. -/
def updateOrderStatus (orderId : Nat) (status : OrderStatus) :
    List Order → Option Order × List Order
  | [] => (none, [])
  | o :: os =>
    if o.numeroPedido = orderId then
      let o2 := { o with estadoPedido := status }
      (some o2, o2 :: os)
    else
      ((updateOrderStatus orderId status os).1, o :: (updateOrderStatus orderId status os).2)

/-- `ordersService.updatePaymentStatus(orderId, paymentStatus)`: overwrites
`estadoPago`; additionally, when the new payment status is `COMPLETED` and
the order's `estadoPedido` is `PENDING`, advances `estadoPedido` to
`PROCESSING`. -/
def updatePaymentStatus (orderId : Nat) (paymentStatus : PaymentStatus) :
    List Order → Option Order × List Order
  | [] => (none, [])
  | o :: os =>
    if o.numeroPedido = orderId then
      let o2 := { o with estadoPago := paymentStatus }
      let o3 :=
        if paymentStatus = .COMPLETED ∧ o2.estadoPedido = .PENDING then
          { o2 with estadoPedido := .PROCESSING }
        else o2
      (some o3, o3 :: os)
    else
      ((updatePaymentStatus orderId paymentStatus os).1,
        o :: (updatePaymentStatus orderId paymentStatus os).2)

/-- Result of `ordersService.cancelOrder`. -/
inductive CancelResult
  | ok (order : Order)
  | notFound
  | stateConflict (estado : OrderStatus)
deriving DecidableEq, Repr

/-- The `for (const item of order.productos)` restock loop of `cancelOrder`:
each line item's quantity is added back via `updateStock`; the result of each
call is ignored by the source. -/
def releaseAll : List OrderItem → List Product → List Product
  | [], products => products
  | item :: rest, products =>
    releaseAll rest (updateStock item.producto_id item.cantidad products).2

/-- `ordersService.cancelOrder(orderId)`: rejects only when the order is
missing or its `estadoPedido` is `SHIPPED` or `DELIVERED`; otherwise restores
each line item's quantity to the products file and sets `estadoPedido` to
`CANCELLED`. -/
def cancelOrder (st : St) (orderId : Nat) : CancelResult × St :=
  match getOrderById orderId st.orders with
  | none => (.notFound, st)
  | some order =>
    if order.estadoPedido = .SHIPPED ∨ order.estadoPedido = .DELIVERED then
      (.stateConflict order.estadoPedido, st)
    else
      let products2 := releaseAll order.productos st.products
      match updateOrderStatus orderId .CANCELLED st.orders with
      | (some o2, orders2) =>
        (.ok o2, { st with products := products2, orders := orders2 })
      | (none, orders2) =>
        (.notFound, { st with products := products2, orders := orders2 })

/-- A partial update body for `productsService.updateProduct`
(`{ ...product, ...productData }`): present fields overwrite the stored
product.  The `id` key is not part of an update body. -/
structure ProductPatch where
  nombre : Option String
  precio : Option Int
  stock_disponible : Option Int
  activo : Option Bool
deriving DecidableEq, Repr

/-- JS object-spread merge of a stored product with an update body. -/
def applyPatch (p : Product) (patch : ProductPatch) : Product :=
  { p with
    nombre := patch.nombre.getD p.nombre
    precio := patch.precio.getD p.precio
    stock_disponible := patch.stock_disponible.getD p.stock_disponible
    activo := patch.activo.getD p.activo }

/-- `productsService.updateProduct(productId, productData)` on the products
file: merge the body into the first matching product. -/
def updateProductList (productId : Nat) (patch : ProductPatch) :
    List Product → Option Product × List Product
  | [] => (none, [])
  | p :: ps =>
    if p.id = productId then
      let p2 := applyPatch p patch
      (some p2, p2 :: ps)
    else
      ((updateProductList productId patch ps).1, p :: (updateProductList productId patch ps).2)

/-- `productsService.updateProduct` lifted to the whole state: it reads and
writes only `products.json`. -/
def updateProduct (st : St) (productId : Nat) (patch : ProductPatch) :
    Option Product × St :=
  let r := updateProductList productId patch st.products
  (r.1, { st with products := r.2 })

/-- `config.PAYMENT_GATEWAYS`. -/
def PAYMENT_GATEWAYS : List String := ["paypal", "stripe"]

/-- Payment-id assignment of `processPayment`:
`payments.length > 0 ? Math.max(...payments.map(p => p.id)) + 1 : 2001`. -/
def nextPaymentId (payments : List Payment) : Nat :=
  match payments with
  | [] => 2001
  | ps => (ps.map Payment.id).foldl max 0 + 1

/-- Result of `paymentsService.processPayment`. -/
inductive PayResult
  | invalidGateway
  | orderNotFound
  | alreadyPaid
  | gatewayDeclined
  | ok (payment : Payment)
deriving DecidableEq, Repr

/-- `paymentsService.processPayment(orderId, gateway)` (flat-file variant in
`notifications.service.js`): validates the gateway name, loads the order,
rejects with "La orden ya ha sido pagada" when `order.estadoPago` is already
`COMPLETED`, invokes the simulated gateway charge (outcome `chargeSucceeds`),
and on success marks the order paid via `updatePaymentStatus(COMPLETED)` and
appends a new `COMPLETED` payment record for `order.total`. -/
def processPayment (st : St) (orderId : Nat) (gateway : String)
    (chargeSucceeds : Bool) (transactionId : String) (mensaje : String) :
    PayResult × St :=
  if gateway ∈ PAYMENT_GATEWAYS then
    match getOrderById orderId st.orders with
    | none => (.orderNotFound, st)
    | some order =>
      if order.estadoPago = .COMPLETED then (.alreadyPaid, st)
      else if chargeSucceeds then
        let orders2 := (updatePaymentStatus orderId .COMPLETED st.orders).2
        let newPayment : Payment :=
          { id := nextPaymentId st.payments
            pedido_id := orderId
            transaccion_id := transactionId
            respuesta := mensaje
            estado := .COMPLETED
            monto := order.total
            pasarela := gateway }
        (.ok newPayment,
          { st with orders := orders2, payments := st.payments ++ [newPayment] })
      else (.gatewayDeclined, st)
  else (.invalidGateway, st)

/-- Sum of the quantities of the line items that reference `productId`
(what `cancelOrder`'s restock loop adds back to that product). -/
def sumQty (productId : Nat) : List OrderItem → Int
  | [] => 0
  | i :: is => (if i.producto_id = productId then i.cantidad else 0) + sumQty productId is

/-- Sum over the line items of (captured unit price × quantity), in order. -/
def lineSum : List OrderItem → Int
  | [] => 0
  | i :: is => i.precio_unitario * i.cantidad + lineSum is

theorem lineSum_append (a b : List OrderItem) :
    lineSum (a ++ b) = lineSum a + lineSum b := by
  induction a with
  | nil => simp [lineSum]
  | cons i is ih => simp [lineSum, ih]; ring

theorem updateStock_insufficient (productId : Nat) (q s : Int) (products : List Product)
    (hs : getStock products productId = some s) (hq : q < 0) (hlt : s < |q|) :
    updateStock productId q products = (.insufficient, products) := by
  induction products with
  | nil => simp [getStock, getProductById] at hs
  | cons p ps ih =>
    by_cases hid : p.id = productId
    · simp only [getStock, getProductById, if_pos hid, Option.map_some',
        Option.some.injEq] at hs
      have hc : q < 0 ∧ p.stock_disponible < |q| := ⟨hq, by rw [hs]; exact hlt⟩
      simp only [updateStock, if_pos hid]
      rw [if_pos hc]
    · simp only [getStock, getProductById, if_neg hid] at hs
      have hrec := ih hs
      simp only [updateStock, if_neg hid, hrec]

theorem updateStock_ok (productId : Nat) (q s : Int) (products : List Product)
    (hs : getStock products productId = some s) (hok : ¬(q < 0 ∧ s < |q|)) :
    (updateStock productId q products).1 = .ok (s + q) ∧
    getStock (updateStock productId q products).2 productId = some (s + q) := by
  induction products with
  | nil => simp [getStock, getProductById] at hs
  | cons p ps ih =>
    by_cases hid : p.id = productId
    · simp only [getStock, getProductById, if_pos hid, Option.map_some',
        Option.some.injEq] at hs
      subst hs
      have hok2 : ¬(q < 0 ∧ p.stock_disponible < |q|) := hok
      simp [updateStock, if_pos hid, if_neg hok2, getStock, getProductById, hid]
    · simp only [getStock, getProductById, if_neg hid] at hs
      obtain ⟨h1, h2⟩ := ih hs
      refine ⟨by simp only [updateStock, if_neg hid]; exact h1, ?_⟩
      simp only [updateStock, if_neg hid, getStock, getProductById]
      exact h2

theorem getStock_updateStock_other (productId pid2 : Nat) (q : Int)
    (products : List Product) (hne : pid2 ≠ productId) :
    getStock (updateStock productId q products).2 pid2 = getStock products pid2 := by
  induction products with
  | nil => rfl
  | cons p ps ih =>
    by_cases hid : p.id = productId
    · have hne2 : ¬(p.id = pid2) := fun hcontra => hne (hcontra ▸ hid)
      by_cases hcond : q < 0 ∧ p.stock_disponible < |q|
      · simp only [updateStock, if_pos hid, if_pos hcond]
      · simp only [updateStock, if_pos hid, if_neg hcond, getStock, getProductById]
        rw [if_neg hne2, if_neg hne2]
    · simp only [updateStock, if_neg hid, getStock, getProductById]
      by_cases hph : p.id = pid2
      · rw [if_pos hph, if_pos hph]
      · rw [if_neg hph, if_neg hph]
        exact ih

theorem getStock_releaseAll (items : List OrderItem) :
    ∀ (products : List Product) (pid : Nat) (s : Int),
      (∀ i ∈ items, (getStock products i.producto_id).isSome) →
      (∀ i ∈ items, 0 ≤ i.cantidad) →
      getStock products pid = some s →
      getStock (releaseAll items products) pid = some (s + sumQty pid items) := by
  induction items with
  | nil =>
    intro products pid s _ _ hs
    simpa [releaseAll, sumQty] using hs
  | cons item rest ih =>
    intro products pid s hex hq hs
    obtain ⟨t, ht⟩ : ∃ t, getStock products item.producto_id = some t := by
      have hsome := hex item (List.mem_cons_self item rest)
      cases hcase : getStock products item.producto_id with
      | none => rw [hcase] at hsome; simp at hsome
      | some t => exact ⟨t, rfl⟩
    have hq0 : 0 ≤ item.cantidad := hq item (List.mem_cons_self item rest)
    have hok : ¬(item.cantidad < 0 ∧ t < |item.cantidad|) := by
      intro hc
      omega
    obtain ⟨_, hupd⟩ := updateStock_ok item.producto_id item.cantidad t products ht hok
    have hs2 : getStock (updateStock item.producto_id item.cantidad products).2 pid =
        some (s + if item.producto_id = pid then item.cantidad else 0) := by
      by_cases hpp : pid = item.producto_id
      · subst hpp
        have hts : s = t := Option.some.inj (hs.symm.trans ht)
        subst hts
        rw [hupd]
        simp
      · rw [getStock_updateStock_other _ _ _ _ hpp, hs]
        have hne : ¬(item.producto_id = pid) := fun hh => hpp hh.symm
        simp [hne]
    have hex2 : ∀ i ∈ rest, (getStock (updateStock item.producto_id item.cantidad products).2
        i.producto_id).isSome := by
      intro i hi
      by_cases hip : i.producto_id = item.producto_id
      · rw [hip, hupd]
        simp
      · rw [getStock_updateStock_other _ _ _ _ hip]
        exact hex i (List.mem_cons_of_mem item hi)
    have hq2 : ∀ i ∈ rest, 0 ≤ i.cantidad := fun i hi => hq i (List.mem_cons_of_mem item hi)
    have hrec := ih (updateStock item.producto_id item.cantidad products).2 pid _ hex2 hq2 hs2
    simp only [releaseAll]
    rw [hrec]
    simp only [sumQty]
    rw [add_assoc]

theorem updateOrderStatus_found (orderId : Nat) (status : OrderStatus)
    (orders : List Order) (order : Order)
    (h : getOrderById orderId orders = some order) :
    (updateOrderStatus orderId status orders).1 = some { order with estadoPedido := status } ∧
    getOrderById orderId (updateOrderStatus orderId status orders).2 =
      some { order with estadoPedido := status } := by
  induction orders with
  | nil => simp [getOrderById] at h
  | cons o os ih =>
    by_cases hid : o.numeroPedido = orderId
    · simp only [getOrderById, if_pos hid, Option.some.injEq] at h
      subst h
      refine ⟨by simp [updateOrderStatus, if_pos hid], ?_⟩
      simp [updateOrderStatus, if_pos hid, getOrderById, hid]
    · simp only [getOrderById, if_neg hid] at h
      obtain ⟨h1, h2⟩ := ih h
      simp only [updateOrderStatus, if_neg hid]
      refine ⟨h1, ?_⟩
      simp only [getOrderById]
      rw [if_neg hid]
      exact h2

/-- Claim C8: for every stored order, `updatePaymentStatus(orderId, COMPLETED)`
sets `estadoPago` to `COMPLETED`, and sets `estadoPedido` to `PROCESSING`
exactly when the current `estadoPedido` is `PENDING`, leaving it unchanged
for every other current fulfillment status. -/
theorem updatePaymentStatus_completed (orders : List Order) (orderId : Nat) (order : Order)
    (h : getOrderById orderId orders = some order) :
    (updatePaymentStatus orderId .COMPLETED orders).1 =
      some { order with
        estadoPago := .COMPLETED
        estadoPedido :=
          if order.estadoPedido = .PENDING then .PROCESSING else order.estadoPedido } ∧
    getOrderById orderId (updatePaymentStatus orderId .COMPLETED orders).2 =
      some { order with
        estadoPago := .COMPLETED
        estadoPedido :=
          if order.estadoPedido = .PENDING then .PROCESSING else order.estadoPedido } := by
  induction orders with
  | nil => simp [getOrderById] at h
  | cons o os ih =>
    by_cases hid : o.numeroPedido = orderId
    · simp only [getOrderById, if_pos hid, Option.some.injEq] at h
      subst h
      by_cases hp : o.estadoPedido = .PENDING
      · simp [updatePaymentStatus, if_pos hid, getOrderById, hid, hp]
      · simp [updatePaymentStatus, if_pos hid, getOrderById, hid, hp]
    · simp only [getOrderById, if_neg hid] at h
      obtain ⟨h1, h2⟩ := ih h
      simp only [updatePaymentStatus, if_neg hid]
      refine ⟨h1, ?_⟩
      simp only [getOrderById]
      rw [if_neg hid]
      exact h2

theorem createOrderLoop_total (items : List ReqItem) :
    ∀ (products : List Product) (total : Int) (acc : List OrderItem)
      {e : Option CreateErr} {products2 : List Product} {total2 : Int} {acc2 : List OrderItem},
      createOrderLoop items products total acc = (e, products2, total2, acc2) →
      total2 - lineSum acc2 = total - lineSum acc := by
  induction items with
  | nil =>
    intro products total acc e products2 total2 acc2 h
    simp only [createOrderLoop, Prod.mk.injEq] at h
    obtain ⟨_, _, h3, h4⟩ := h
    subst h3
    subst h4
    ring
  | cons item rest ih =>
    intro products total acc e products2 total2 acc2 h
    simp only [createOrderLoop] at h
    split at h
    · simp only [Prod.mk.injEq] at h
      obtain ⟨_, _, h3, h4⟩ := h
      subst h3
      subst h4
      ring
    · split at h
      · simp only [Prod.mk.injEq] at h
        obtain ⟨_, _, h3, h4⟩ := h
        subst h3
        subst h4
        ring
      · split at h
        · have hrec := ih _ _ _ h
          rw [lineSum_append] at hrec
          simp only [lineSum] at hrec
          linarith [hrec]
        · simp only [Prod.mk.injEq] at h
          obtain ⟨_, _, h3, h4⟩ := h
          subst h3
          subst h4
          ring

theorem cancelOrder_cancellable (st : St) (orderId : Nat) (order : Order)
    (pid : Nat) (s : Int)
    (h : getOrderById orderId st.orders = some order)
    (hns : ¬(order.estadoPedido = .SHIPPED ∨ order.estadoPedido = .DELIVERED))
    (hex : ∀ i ∈ order.productos, (getStock st.products i.producto_id).isSome)
    (hq : ∀ i ∈ order.productos, 0 ≤ i.cantidad)
    (hs : getStock st.products pid = some s) :
    (cancelOrder st orderId).1 = .ok { order with estadoPedido := .CANCELLED } ∧
    getOrderById orderId (cancelOrder st orderId).2.orders =
      some { order with estadoPedido := .CANCELLED } ∧
    getStock (cancelOrder st orderId).2.products pid =
      some (s + sumQty pid order.productos) := by
  obtain ⟨h1, h2⟩ := updateOrderStatus_found orderId .CANCELLED st.orders order h
  have hrel := getStock_releaseAll order.productos st.products pid s hex hq hs
  cases hu : updateOrderStatus orderId .CANCELLED st.orders with
  | mk r orders2 =>
    rw [hu] at h1 h2
    simp only at h1 h2
    subst h1
    simp only [cancelOrder, h, if_neg hns, hu]
    exact ⟨trivial, h2, hrel⟩

/-! Claim theorems. -/

/-- Products file for the C1 failing input: product A (id 1, stock 10) and
product B (id 2, stock 5). -/
def c1Products : List Product :=
  [{ id := 1, nombre := "A", precio := 5, stock_disponible := 10, activo := true },
   { id := 2, nombre := "B", precio := 7, stock_disponible := 5, activo := true }]

/-- Initial state for the C1 failing input. -/
def c1St : St := { products := c1Products, orders := [], payments := [] }

/-- Order request for the C1 failing input: 2 units of A, then 999 units of
B (B has only 5 in stock, so validation fails at the second item). -/
def c1Request : OrderData :=
  { cliente_id := 1, productos := [⟨1, 2⟩, ⟨2, 999⟩],
    metodoPago := "card", direccion := "calle 1", telefono := "300" }

/-- Claim C1: the claim demands that when order creation fails validation at
item k, the stock of the products of items 1..k-1 is fully rolled back.  The
code has no rollback: on the spec's own example ([(A,2),(B,999)] with B
having 5 in stock) `createOrder` fails at item 2 but leaves A's stock at 8
instead of restoring it to 10.  No order is created. -/
theorem createOrder_no_rollback_on_failure :
    (createOrder c1St c1Request).1 = .err (.insufficientStock "B" 5) ∧
    getStock c1St.products 1 = some 10 ∧
    getStock (createOrder c1St c1Request).2.products 1 = some 8 ∧
    (createOrder c1St c1Request).2.orders = [] := by decide

/-- Claim C2: against a product whose stock is exactly `Q` (`Q > 0`), two
reservations of `Q` each — which Node's run-to-completion semantics
serialises, `updateStock` being fully synchronous — produce exactly one
success and one `Stock insuficiente` failure, and the final stock is 0
(never oversold, never both rejected).  The two calls are identical, so both
serialisation orders are this one. -/
theorem two_reservations_exactly_one_success (products : List Product) (pid : Nat) (Q : Int)
    (hs : getStock products pid = some Q) (hQ : 0 < Q) :
    (updateStock pid (-Q) products).1 = .ok 0 ∧
    (updateStock pid (-Q) (updateStock pid (-Q) products).2).1 = .insufficient ∧
    getStock (updateStock pid (-Q) (updateStock pid (-Q) products).2).2 pid = some 0 := by
  have hok : ¬(-Q < 0 ∧ Q < |(-Q)|) := by
    intro hc
    rw [abs_neg, abs_of_pos hQ] at hc
    omega
  obtain ⟨h1, h2⟩ := updateStock_ok pid (-Q) Q products hs hok
  have hz : Q + -Q = 0 := by ring
  rw [hz] at h1 h2
  have hfail := updateStock_insufficient pid (-Q) 0 (updateStock pid (-Q) products).2 h2
    (by omega) (by rw [abs_neg, abs_of_pos hQ]; omega)
  refine ⟨h1, ?_, ?_⟩
  · rw [hfail]
  · rw [hfail]
    exact h2

/-- Products file used by the C2 witness. -/
def c2Products : List Product :=
  [{ id := 1, nombre := "A", precio := 5, stock_disponible := 5, activo := true }]

/-- Witness for C2 at stock = reservation quantity = 5. -/
theorem two_reservations_exactly_one_success_witness :
    getStock c2Products 1 = some 5 ∧ (0 : Int) < 5 ∧
    ((updateStock 1 (-5) c2Products).1 = .ok 0 ∧
      (updateStock 1 (-5) (updateStock 1 (-5) c2Products).2).1 = .insufficient ∧
      getStock (updateStock 1 (-5) (updateStock 1 (-5) c2Products).2).2 1 = some 0) :=
  ⟨by decide, by decide,
    two_reservations_exactly_one_success c2Products 1 5 (by decide) (by decide)⟩

/-- Claim C3: reserving `q ≥ 1` units (`updateStock` with delta `-q`) from a
product with stock `s` succeeds with new stock `s - q` when `q ≤ s`, and
fails with `Stock insuficiente` leaving the products file untouched when
`q > s`. -/
theorem reserve_stock_correct (products : List Product) (pid : Nat) (q s : Int)
    (hs : getStock products pid = some s) (hq : 1 ≤ q) :
    (q ≤ s →
      (updateStock pid (-q) products).1 = .ok (s - q) ∧
      getStock (updateStock pid (-q) products).2 pid = some (s - q)) ∧
    (s < q → updateStock pid (-q) products = (.insufficient, products)) := by
  have hqpos : (0 : Int) < q := by omega
  constructor
  · intro hle
    have hok : ¬(-q < 0 ∧ s < |(-q)|) := by
      intro hc
      rw [abs_neg, abs_of_pos hqpos] at hc
      omega
    obtain ⟨h1, h2⟩ := updateStock_ok pid (-q) s products hs hok
    have hz : s + -q = s - q := by ring
    rw [hz] at h1 h2
    exact ⟨h1, h2⟩
  · intro hlt
    exact updateStock_insufficient pid (-q) s products hs (by omega)
      (by rw [abs_neg, abs_of_pos hqpos]; omega)

/-- Witness for C3: product with stock 10, reservation of 3 (success with
new stock 7) and, at stock 2, reservation of 3 (failure, file untouched). -/
theorem reserve_stock_correct_witness :
    getStock c1Products 1 = some 10 ∧ (1 : Int) ≤ 3 ∧
    (((3 : Int) ≤ 10 →
      (updateStock 1 (-3) c1Products).1 = .ok 7 ∧
      getStock (updateStock 1 (-3) c1Products).2 1 = some 7) ∧
    ((10 : Int) < 3 → updateStock 1 (-3) c1Products = (.insufficient, c1Products))) :=
  ⟨by decide, by decide, by
    have hmain := reserve_stock_correct c1Products 1 3 10 (by decide) (by decide)
    have h7 : (10 : Int) - 3 = 7 := by decide
    rw [h7] at hmain
    exact hmain⟩

/-- Claim C4: a successfully created order stores
`total = Σ precio_unitario × cantidad` over its own line items (the unit
prices captured at creation time), and `updateProduct` — which reads and
writes only the products file — leaves every stored order (hence its total
and captured unit prices) unchanged, whatever price change the patch makes. -/
theorem createOrder_total_and_price_snapshot (st : St) (orderData : OrderData)
    (order : Order) (st2 : St)
    (h : createOrder st orderData = (.ok order, st2)) :
    order.total = lineSum order.productos ∧
    ∀ (productId : Nat) (patch : ProductPatch),
      (updateProduct st2 productId patch).2.orders = st2.orders := by
  constructor
  · rcases hloop : createOrderLoop orderData.productos st.products 0 [] with
      ⟨e, ps2, total2, acc2⟩
    have htot := createOrderLoop_total orderData.productos st.products 0 [] hloop
    simp only [lineSum] at htot
    unfold createOrder at h
    rw [hloop] at h
    cases e with
    | some errv => simp at h
    | none =>
      simp only [Prod.mk.injEq, CreateResult.ok.injEq] at h
      obtain ⟨horder, _⟩ := h
      subst horder
      show total2 = lineSum acc2
      omega
  · intro productId patch
    simp [updateProduct]

/-- Initial state for the C4 witness. -/
def c4St : St :=
  { products := [{ id := 1, nombre := "A", precio := 5, stock_disponible := 10, activo := true }],
    orders := [], payments := [] }

/-- Order request for the C4 witness: 3 units of product 1 at price 5. -/
def c4Data : OrderData :=
  { cliente_id := 7, productos := [⟨1, 3⟩], metodoPago := "card",
    direccion := "d", telefono := "t" }

/-- The order `createOrder` produces from `c4St` and `c4Data`. -/
def c4Order : Order :=
  { numeroPedido := 1001, cliente_id := 7, productos := [⟨1, 3, 5⟩], total := 15,
    estadoPedido := .PENDING, estadoPago := .PENDING, metodoPago := "card",
    direccion := "d", telefono := "t" }

/-- The state `createOrder` produces from `c4St` and `c4Data`. -/
def c4St2 : St :=
  { products := [{ id := 1, nombre := "A", precio := 5, stock_disponible := 7, activo := true }],
    orders := [c4Order], payments := [] }

/-- Witness for C4 at a one-item order: total 15 = 5 × 3. -/
theorem createOrder_total_and_price_snapshot_witness :
    createOrder c4St c4Data = (.ok c4Order, c4St2) ∧
    c4Order.total = lineSum c4Order.productos :=
  ⟨by decide,
    (createOrder_total_and_price_snapshot c4St c4Data c4Order c4St2 (by decide)).1⟩

/-- Claim C5: cancelling an order whose fulfillment status is `SHIPPED` or
`DELIVERED` fails with the state-conflict rejection and returns the state
completely unchanged — same orders file (so both statuses intact) and same
products file (so no stock change). -/
theorem cancelOrder_rejects_shipped_delivered (st : St) (orderId : Nat) (order : Order)
    (h : getOrderById orderId st.orders = some order)
    (hs : order.estadoPedido = .SHIPPED ∨ order.estadoPedido = .DELIVERED) :
    cancelOrder st orderId = (.stateConflict order.estadoPedido, st) := by
  simp only [cancelOrder, h]
  rw [if_pos hs]

/-- An order in `SHIPPED` fulfillment status, for the C5 witness. -/
def c5Order : Order :=
  { numeroPedido := 1001, cliente_id := 1, productos := [⟨1, 2, 5⟩], total := 10,
    estadoPedido := .SHIPPED, estadoPago := .COMPLETED, metodoPago := "card",
    direccion := "d", telefono := "t" }

/-- State holding the `SHIPPED` order `c5Order`, for the C5 witness. -/
def c5St : St := { products := c1Products, orders := [c5Order], payments := [] }

/-- Witness for C5 on a `SHIPPED` order. -/
theorem cancelOrder_rejects_shipped_delivered_witness :
    getOrderById 1001 c5St.orders = some c5Order ∧
    (c5Order.estadoPedido = .SHIPPED ∨ c5Order.estadoPedido = .DELIVERED) ∧
    cancelOrder c5St 1001 = (.stateConflict c5Order.estadoPedido, c5St) :=
  ⟨by decide, Or.inl (by decide),
    cancelOrder_rejects_shipped_delivered c5St 1001 c5Order (by decide)
      (Or.inl (by decide))⟩

/-- Claim C6: cancelling an order in `PENDING` or `PROCESSING` fulfillment
status succeeds, sets the order's fulfillment status to `CANCELLED`, and
raises every product's stock by the summed quantities of the line items that
reference it — exactly what was reserved at creation (products not
referenced get `sumQty = 0`, i.e. stay unchanged).  The hypotheses say that
each referenced product exists in the products file and each line-item
quantity is non-negative, which is how `createOrder` builds orders. -/
theorem cancelOrder_restores_stock_pending_processing (st : St) (orderId : Nat)
    (order : Order) (pid : Nat) (s : Int)
    (h : getOrderById orderId st.orders = some order)
    (hst : order.estadoPedido = .PENDING ∨ order.estadoPedido = .PROCESSING)
    (hex : ∀ i ∈ order.productos, (getStock st.products i.producto_id).isSome)
    (hq : ∀ i ∈ order.productos, 0 ≤ i.cantidad)
    (hs : getStock st.products pid = some s) :
    (cancelOrder st orderId).1 = .ok { order with estadoPedido := .CANCELLED } ∧
    getOrderById orderId (cancelOrder st orderId).2.orders =
      some { order with estadoPedido := .CANCELLED } ∧
    getStock (cancelOrder st orderId).2.products pid =
      some (s + sumQty pid order.productos) :=
  cancelOrder_cancellable st orderId order pid s h
    (by rcases hst with h1 | h1 <;> simp [h1]) hex hq hs

/-- An order in `PENDING` fulfillment status reserving 2 units of product 1,
for the C6 witness. -/
def c6Order : Order :=
  { numeroPedido := 1001, cliente_id := 1, productos := [⟨1, 2, 5⟩], total := 10,
    estadoPedido := .PENDING, estadoPago := .PENDING, metodoPago := "card",
    direccion := "d", telefono := "t" }

/-- State holding the `PENDING` order `c6Order`, for the C6 witness. -/
def c6St : St := { products := c1Products, orders := [c6Order], payments := [] }

/-- Witness for C6: cancelling the pending order restores product 1's stock
from 10 to 12 (its 2 reserved units) and marks the order `CANCELLED`. -/
theorem cancelOrder_restores_stock_pending_processing_witness :
    getOrderById 1001 c6St.orders = some c6Order ∧
    (c6Order.estadoPedido = .PENDING ∨ c6Order.estadoPedido = .PROCESSING) ∧
    (∀ i ∈ c6Order.productos, (getStock c6St.products i.producto_id).isSome) ∧
    (∀ i ∈ c6Order.productos, 0 ≤ i.cantidad) ∧
    getStock c6St.products 1 = some 10 ∧
    ((cancelOrder c6St 1001).1 = .ok { c6Order with estadoPedido := .CANCELLED } ∧
      getOrderById 1001 (cancelOrder c6St 1001).2.orders =
        some { c6Order with estadoPedido := .CANCELLED } ∧
      getStock (cancelOrder c6St 1001).2.products 1 =
        some (10 + sumQty 1 c6Order.productos)) :=
  ⟨by decide, Or.inl (by decide), by decide, by decide, by decide,
    cancelOrder_restores_stock_pending_processing c6St 1001 c6Order 1 10
      (by decide) (Or.inl (by decide)) (by decide) (by decide) (by decide)⟩

/-- Claim C7: `processPayment` on an order whose `estadoPago` is already
`COMPLETED` fails with the "already paid" rejection and returns the state
unchanged: no payment record is appended and the order's payment and
fulfillment statuses stay as they were.  `b` is the simulated gateway
outcome, which is never reached on this path. -/
theorem processPayment_already_paid (st : St) (orderId : Nat) (gateway : String)
    (b : Bool) (tx msg : String) (order : Order)
    (hg : gateway ∈ PAYMENT_GATEWAYS)
    (h : getOrderById orderId st.orders = some order)
    (hp : order.estadoPago = .COMPLETED) :
    processPayment st orderId gateway b tx msg = (.alreadyPaid, st) := by
  simp only [processPayment, if_pos hg, h]
  rw [if_pos hp]

/-- State with an already-paid order (payment status `COMPLETED`), for the
C7 witness. -/
def c7St : St := { products := c1Products, orders := [c5Order], payments := [] }

/-- Witness for C7: paying the already-`COMPLETED` order `c5Order` through
a valid gateway is rejected and changes nothing. -/
theorem processPayment_already_paid_witness :
    "paypal" ∈ PAYMENT_GATEWAYS ∧
    getOrderById 1001 c7St.orders = some c5Order ∧
    c5Order.estadoPago = .COMPLETED ∧
    processPayment c7St 1001 "paypal" true "tx" "m" = (.alreadyPaid, c7St) :=
  ⟨by decide, by decide, by decide,
    processPayment_already_paid c7St 1001 "paypal" true "tx" "m" c5Order
      (by decide) (by decide) (by decide)⟩

/-- Witness for C8: completing the payment of the `PENDING` order `c6Order`
sets `estadoPago = COMPLETED` and auto-advances `estadoPedido` to
`PROCESSING`. -/
theorem updatePaymentStatus_completed_witness :
    getOrderById 1001 [c6Order] = some c6Order ∧
    ((updatePaymentStatus 1001 .COMPLETED [c6Order]).1 =
      some { c6Order with
        estadoPago := .COMPLETED
        estadoPedido :=
          if c6Order.estadoPedido = .PENDING then .PROCESSING else c6Order.estadoPedido } ∧
    getOrderById 1001 (updatePaymentStatus 1001 .COMPLETED [c6Order]).2 =
      some { c6Order with
        estadoPago := .COMPLETED
        estadoPedido :=
          if c6Order.estadoPedido = .PENDING then .PROCESSING else c6Order.estadoPedido }) :=
  ⟨by decide, updatePaymentStatus_completed [c6Order] 1001 c6Order (by decide)⟩

/-- A `DELIVERED` order, input of the C9 counterexample. -/
def c9Order : Order :=
  { numeroPedido := 1001, cliente_id := 1, productos := [], total := 0,
    estadoPedido := .DELIVERED, estadoPago := .COMPLETED, metodoPago := "card",
    direccion := "d", telefono := "t" }

/-- Claim C9 counterexample: `updateOrderStatus` moves a `DELIVERED` order
back to `PENDING` and reports success — a backward transition the claimed
invariant forbids is actually performed. -/
theorem updateOrderStatus_performs_backward_transition :
    c9Order.estadoPedido = .DELIVERED ∧
    (updateOrderStatus 1001 .PENDING [c9Order]).1 =
      some { c9Order with estadoPedido := .PENDING } ∧
    getOrderById 1001 (updateOrderStatus 1001 .PENDING [c9Order]).2 =
      some { c9Order with estadoPedido := .PENDING } := by decide

/-- Claim C9 (amended): `updateOrderStatus` enforces no transition
discipline at all — for every stored order and every valid status value it
overwrites the fulfillment status with the requested value, backward moves
and `CANCELLED`-from-`SHIPPED`/`DELIVERED` included; only `cancelOrder`
refuses orders in `SHIPPED` or `DELIVERED` status. -/
theorem updateOrderStatus_allows_any_transition (orders : List Order) (orderId : Nat)
    (status : OrderStatus) (order : Order)
    (h : getOrderById orderId orders = some order) :
    (updateOrderStatus orderId status orders).1 =
      some { order with estadoPedido := status } ∧
    getOrderById orderId (updateOrderStatus orderId status orders).2 =
      some { order with estadoPedido := status } :=
  updateOrderStatus_found orderId status orders order h

/-- Witness for the amended C9: the `SHIPPED` order `c5Order` is set to
`CANCELLED` by `updateOrderStatus` — a transition `cancelOrder` refuses. -/
theorem updateOrderStatus_allows_any_transition_witness :
    getOrderById 1001 [c5Order] = some c5Order ∧
    ((updateOrderStatus 1001 .CANCELLED [c5Order]).1 =
      some { c5Order with estadoPedido := .CANCELLED } ∧
    getOrderById 1001 (updateOrderStatus 1001 .CANCELLED [c5Order]).2 =
      some { c5Order with estadoPedido := .CANCELLED }) :=
  ⟨by decide, updateOrderStatus_allows_any_transition [c5Order] 1001 .CANCELLED c5Order
    (by decide)⟩

/-- Claim C10: cancelling an order that is already `CANCELLED` is not
rejected: `cancelOrder` succeeds again, adds every line item's quantity to
the referenced product's stock a second time, and leaves the fulfillment
status `CANCELLED` — so each repeated cancellation inflates stock by the
order's quantities. -/
theorem cancelOrder_cancelled_releases_again (st : St) (orderId : Nat)
    (order : Order) (pid : Nat) (s : Int)
    (h : getOrderById orderId st.orders = some order)
    (hst : order.estadoPedido = .CANCELLED)
    (hex : ∀ i ∈ order.productos, (getStock st.products i.producto_id).isSome)
    (hq : ∀ i ∈ order.productos, 0 ≤ i.cantidad)
    (hs : getStock st.products pid = some s) :
    (cancelOrder st orderId).1 = .ok { order with estadoPedido := .CANCELLED } ∧
    getOrderById orderId (cancelOrder st orderId).2.orders =
      some { order with estadoPedido := .CANCELLED } ∧
    getStock (cancelOrder st orderId).2.products pid =
      some (s + sumQty pid order.productos) :=
  cancelOrder_cancellable st orderId order pid s h (by simp [hst]) hex hq hs

/-- The already-cancelled order used by the C10 witness. -/
def c10Order : Order := { c6Order with estadoPedido := .CANCELLED }

/-- State holding the already-cancelled order `c10Order`. -/
def c10St : St := { products := c1Products, orders := [c10Order], payments := [] }

/-- Witness for C10: re-cancelling the already-cancelled order adds its 2
reserved units to product 1's stock again (10 → 12). -/
theorem cancelOrder_cancelled_releases_again_witness :
    getOrderById 1001 c10St.orders = some c10Order ∧
    c10Order.estadoPedido = .CANCELLED ∧
    (∀ i ∈ c10Order.productos, (getStock c10St.products i.producto_id).isSome) ∧
    (∀ i ∈ c10Order.productos, 0 ≤ i.cantidad) ∧
    getStock c10St.products 1 = some 10 ∧
    ((cancelOrder c10St 1001).1 = .ok { c10Order with estadoPedido := .CANCELLED } ∧
      getOrderById 1001 (cancelOrder c10St 1001).2.orders =
        some { c10Order with estadoPedido := .CANCELLED } ∧
      getStock (cancelOrder c10St 1001).2.products 1 =
        some (10 + sumQty 1 c10Order.productos)) :=
  ⟨by decide, by decide, by decide, by decide, by decide,
    cancelOrder_cancelled_releases_again c10St 1001 c10Order 1 10
      (by decide) (by decide) (by decide) (by decide) (by decide)⟩

end Shop
